import Mathlib

/-!
Shallow embedding of the voucher-claim system (TypeScript + PostgreSQL schema):
VoucherService (claimVoucher, processClaimImmediate, refundVoucher),
VoucherWorker.processJob, RateLimitService (sliding window, IP window),
CacheService, the circuit breaker, and the database triggers from the schema
(log_claim_to_audit, increment_voucher_code_usage).

DB integers are modelled as Int, timestamps as millisecond Int values, row
sets as lists.  A transaction body is a function returning Except; the
transaction wrapper restores the original state on error (rollback).
-/

namespace VoucherProblem

/-- Status enum of the voucher_claims table. -/
inductive ClaimStatus
  | pending
  | success
  | failed
  | refunded
deriving DecidableEq, Repr

/-- Action enum of the voucher_audit_log table. -/
inductive AuditAction
  | claimSuccess
  | claimDenied
  | limitReached
  | refundAction
  | codeCreated
  | codeDeactivated
  | suspiciousActivity
deriving DecidableEq, Repr

/-- Row of the users table (columns read by the claim pipeline). -/
structure UserRow where
  id : Nat
  vouchersClaimed : Int
  voucherLimit : Int
  isPremium : Bool
  isActive : Bool
deriving DecidableEq, Repr, Inhabited

/-- Row of the voucher_codes table (columns read by the claim pipeline). -/
structure CodeRow where
  id : Nat
  code : String
  isActive : Bool
  isUsed : Bool
  usedBy : Option Nat
  usageLimit : Int
  usageCount : Int
  validFrom : Option Int
  expiresAt : Option Int
  allowedUserIds : List Nat
deriving DecidableEq, Repr

/-- Row of the voucher_claims table. -/
structure ClaimRow where
  id : Nat
  userId : Nat
  voucherCode : String
  voucherCodeId : Option Nat
  status : ClaimStatus
  requestId : String
  refundedAt : Option Int
  refundedBy : Option Nat
  refundReason : Option String
deriving DecidableEq, Repr

/-- Row of the voucher_audit_log table. -/
structure AuditRow where
  userId : Option Nat
  action : AuditAction
  voucherCode : Option String
  voucherCodeId : Option Nat
  claimId : Option Nat
deriving DecidableEq, Repr

/-- Committed state of the transactional store. -/
structure DBState where
  users : List UserRow
  codes : List CodeRow
  claims : List ClaimRow
  audit : List AuditRow
  nextClaimId : Nat
deriving DecidableEq, Repr

/-- Domain errors raised by the pipeline (VoucherError subclasses plus plain
Error throws). -/
inductive VoucherErr
  | limitExceeded
  | rateLimited (msg : String)
  | invalidVoucher (reason : String)
  | genericError (msg : String)
deriving DecidableEq, Repr

/-- Status field of a ClaimVoucherResponse. -/
inductive RespStatus
  | pending
  | success
  | limitReached
deriving DecidableEq, Repr

/-- ClaimVoucherResponse from types.ts. -/
structure ClaimResponse where
  success : Bool
  message : String
  vouchersRemaining : Option Int
  requestId : Option String
  status : Option RespStatus
deriving DecidableEq, Repr

/-- ClaimVoucherRequest from types.ts; a queued job carries the same data. -/
structure ClaimRequest where
  userId : Nat
  voucherCode : String
  ipAddress : String
  userAgent : String
  deviceId : Option String
  idempotencyKey : String
deriving DecidableEq, Repr

/-- SELECT of the user row by id filtered on is_active = TRUE. -/
def findActiveUser (st : DBState) (uid : Nat) : Option UserRow :=
  st.users.find? (fun u => u.id == uid && u.isActive)

/-- SELECT of the voucher_codes row by code. -/
def findCodeRow (st : DBState) (code : String) : Option CodeRow :=
  st.codes.find? (fun c => c.code == code)

/-- SELECT 1 FROM voucher_claims WHERE user_id AND voucher_code AND
status = success. -/
def hasSuccessClaim (st : DBState) (uid : Nat) (code : String) : Bool :=
  st.claims.any (fun cl =>
    cl.userId == uid && cl.voucherCode == code && cl.status == ClaimStatus.success)

/-- UPDATE users SET vouchers_claimed = f(vouchers_claimed) WHERE id = uid. -/
def updateUserClaimed (st : DBState) (uid : Nat) (f : Int → Int) : DBState :=
  { st with users := st.users.map (fun u =>
      if u.id == uid then { u with vouchersClaimed := f u.vouchersClaimed } else u) }

/-- Explicit UPDATE on voucher_codes in processClaimImmediate: increments
usage_count, sets is_used when the new count reaches the limit, and stamps
used_by for single-use codes. -/
def updateCodeUsageFast (st : DBState) (cid : Nat) (uid : Nat) : DBState :=
  { st with codes := st.codes.map (fun c =>
      if c.id == cid then
        { c with usageCount := c.usageCount + 1,
                 isUsed := if c.usageCount + 1 ≥ c.usageLimit then true else c.isUsed,
                 usedBy := if c.usageLimit == 1 then some uid else c.usedBy }
      else c) }

/-- UPDATE on voucher_codes in the worker transaction (no used_by column). -/
def updateCodeUsageWorker (st : DBState) (cid : Nat) : DBState :=
  { st with codes := st.codes.map (fun c =>
      if c.id == cid then
        { c with usageCount := c.usageCount + 1,
                 isUsed := if c.usageCount + 1 ≥ c.usageLimit then true else c.isUsed }
      else c) }

/-- Schema trigger log_claim_to_audit: AFTER INSERT ON voucher_claims,
appends an audit row whose action is CLAIM_SUCCESS for a success row and
CLAIM_DENIED otherwise. -/
def triggerLogClaim (st : DBState) (cl : ClaimRow) : DBState :=
  { st with audit := st.audit ++
      [{ userId := some cl.userId,
         action := if cl.status == ClaimStatus.success then AuditAction.claimSuccess
                   else AuditAction.claimDenied,
         voucherCode := some cl.voucherCode,
         voucherCodeId := cl.voucherCodeId,
         claimId := some cl.id }] }

/-- Schema trigger increment_voucher_code_usage: AFTER INSERT ON
voucher_claims, increments usage_count again when the inserted claim has
status success and a voucher_code_id. -/
def triggerIncrementUsage (st : DBState) (cl : ClaimRow) : DBState :=
  match cl.voucherCodeId with
  | none => st
  | some cid =>
    if cl.status == ClaimStatus.success then
      { st with codes := st.codes.map (fun c =>
          if c.id == cid then
            { c with usageCount := c.usageCount + 1,
                     isUsed := if c.usageCount + 1 ≥ c.usageLimit then true else c.isUsed }
          else c) }
    else st

/-- INSERT INTO voucher_claims followed by the two AFTER INSERT triggers of
the schema. -/
def insertClaim (st : DBState) (cl : ClaimRow) : DBState :=
  triggerIncrementUsage (triggerLogClaim { st with claims := st.claims ++ [cl] } cl) cl

/-- Expiry test used by both transaction bodies: expires_at present and
strictly in the past. -/
def isExpired (expiresAt : Option Int) (now : Int) : Bool :=
  match expiresAt with
  | some e => e < now
  | none => false

/-- Idempotency and user caches kept in the key/value store. -/
structure CacheState where
  claimResults : List (String × ClaimResponse)
  userCounts : List (Nat × Int)
  userData : List (Nat × UserRow)
deriving DecidableEq, Repr

def emptyCache : CacheState := ⟨[], [], []⟩

/-- CacheService.getClaimResult. -/
def getClaimResult (c : CacheState) (key : String) : Option ClaimResponse :=
  (c.claimResults.find? (fun p => p.1 == key)).map (fun p => p.2)

/-- CacheService.cacheClaimResult (redis SET overwrites). -/
def cacheClaimResult (c : CacheState) (key : String) (r : ClaimResponse) : CacheState :=
  { c with claimResults := (key, r) :: c.claimResults.filter (fun p => p.1 != key) }

/-- CacheService.getUserVoucherCount. -/
def getUserVoucherCount (c : CacheState) (uid : Nat) : Option Int :=
  (c.userCounts.find? (fun p => p.1 == uid)).map (fun p => p.2)

/-- CacheService.setUserVoucherCount. -/
def setUserVoucherCount (c : CacheState) (uid : Nat) (n : Int) : CacheState :=
  { c with userCounts := (uid, n) :: c.userCounts.filter (fun p => p.1 != uid) }

/-- CacheService.getUser. -/
def getCachedUser (c : CacheState) (uid : Nat) : Option UserRow :=
  (c.userData.find? (fun p => p.1 == uid)).map (fun p => p.2)

/-- CacheService.setUser. -/
def setCachedUser (c : CacheState) (u : UserRow) : CacheState :=
  { c with userData := (u.id, u) :: c.userData.filter (fun p => p.1 != u.id) }

/-- CacheService.invalidateUserCache: deletes every user:{id}:* key, which
covers both the data and the count entry. -/
def invalidateUserCache (c : CacheState) (uid : Nat) : CacheState :=
  { c with userCounts := c.userCounts.filter (fun p => p.1 != uid),
           userData := c.userData.filter (fun p => p.1 != uid) }

/-- Body of VoucherService.processClaimImmediate: the premium fast-path
transaction, including the schema triggers fired by the claims INSERT and
the cache writes the body performs just before returning.  An error result
means the transaction rolled back. -/
def processClaimImmediateTx (req : ClaimRequest) (now : Int) (st : DBState)
    (cache : CacheState) : Except VoucherErr (ClaimResponse × DBState × CacheState) :=
  match findActiveUser st req.userId with
  | none => .error (.genericError "User not found or inactive")
  | some user =>
    if user.vouchersClaimed ≥ user.voucherLimit then
      .error .limitExceeded
    else
      match findCodeRow st req.voucherCode with
      | none => .error (.invalidVoucher "Voucher code not found")
      | some voucher =>
        if !voucher.isActive then
          .error (.invalidVoucher "Voucher code is inactive")
        else if isExpired voucher.expiresAt now then
          .error (.invalidVoucher "Voucher code has expired")
        else if voucher.usageCount ≥ voucher.usageLimit then
          .error (.invalidVoucher "Voucher code usage limit reached")
        else if hasSuccessClaim st req.userId req.voucherCode then
          .error (.invalidVoucher "You have already claimed this voucher")
        else
          let st1 := updateUserClaimed st req.userId (fun c => c + 1)
          let st2 := updateCodeUsageFast st1 voucher.id req.userId
          let cl : ClaimRow :=
            { id := st.nextClaimId, userId := req.userId,
              voucherCode := req.voucherCode, voucherCodeId := some voucher.id,
              status := ClaimStatus.success, requestId := req.idempotencyKey,
              refundedAt := none, refundedBy := none, refundReason := none }
          let st3 := insertClaim { st2 with nextClaimId := st2.nextClaimId + 1 } cl
          let cache1 := invalidateUserCache cache req.userId
          let cache2 := setUserVoucherCount cache1 req.userId (user.vouchersClaimed + 1)
          .ok ({ success := true, message := "Voucher claimed successfully",
                 vouchersRemaining := some (user.voucherLimit - (user.vouchersClaimed + 1)),
                 requestId := none, status := some RespStatus.success },
               st3, cache2)

/-- VoucherService.processClaimImmediate: transaction wrapper; on error the
store state is rolled back (the cache writes only occur on the success
path, so the cache is likewise unchanged on error). -/
def processClaimImmediate (req : ClaimRequest) (now : Int) (st : DBState)
    (cache : CacheState) : Except VoucherErr ClaimResponse × DBState × CacheState :=
  match processClaimImmediateTx req now st cache with
  | .ok (r, st1, c1) => (.ok r, st1, c1)
  | .error e => (.error e, st, cache)

/-- Response returned by the worker when the user limit is reached. -/
def workerLimitResponse : ClaimResponse :=
  { success := false, message := "Voucher limit exceeded",
    vouchersRemaining := none, requestId := none,
    status := some RespStatus.limitReached }

/-- Body of the transaction in VoucherWorker.processJob.  The limit case returns
a result instead of throwing; voucher validation is a single combined check
throwing a plain Error; there is no already-claimed check. -/
def processJobTx (job : ClaimRequest) (now : Int) (st : DBState)
    (cache : CacheState) : Except VoucherErr (ClaimResponse × DBState × CacheState) :=
  match findActiveUser st job.userId with
  | none => .error (.genericError "User not found or inactive")
  | some user =>
    if user.vouchersClaimed ≥ user.voucherLimit then
      .ok (workerLimitResponse, st, cache)
    else
      match findCodeRow st job.voucherCode with
      | none => .error (.genericError "Voucher code not found")
      | some voucher =>
        if !voucher.isActive || isExpired voucher.expiresAt now
            || voucher.usageCount ≥ voucher.usageLimit then
          .error (.genericError "Voucher code is not valid")
        else
          let st1 := updateUserClaimed st job.userId (fun c => c + 1)
          let st2 := updateCodeUsageWorker st1 voucher.id
          let cl : ClaimRow :=
            { id := st.nextClaimId, userId := job.userId,
              voucherCode := job.voucherCode, voucherCodeId := some voucher.id,
              status := ClaimStatus.success, requestId := job.idempotencyKey,
              refundedAt := none, refundedBy := none, refundReason := none }
          let st3 := insertClaim { st2 with nextClaimId := st2.nextClaimId + 1 } cl
          let cache1 := invalidateUserCache cache job.userId
          let cache2 := setUserVoucherCount cache1 job.userId (user.vouchersClaimed + 1)
          .ok ({ success := true, message := "Voucher claimed successfully",
                 vouchersRemaining := some (user.voucherLimit - (user.vouchersClaimed + 1)),
                 requestId := none, status := some RespStatus.success },
               st3, cache2)

/-- VoucherWorker.processJob: runs the transaction and, when it returns
normally (including the limit_reached result), caches the result under the
idempotency key; a thrown error fails the job and caches nothing. -/
def processJob (job : ClaimRequest) (now : Int) (st : DBState)
    (cache : CacheState) : Except VoucherErr ClaimResponse × DBState × CacheState :=
  match processJobTx job now st cache with
  | .ok (r, st1, c1) => (.ok r, st1, cacheClaimResult c1 job.idempotencyKey r)
  | .error e => (.error e, st, cache)

/-- Body of the transaction in VoucherService.refundVoucher. -/
def refundVoucherTx (claimId : Nat) (reason : String) (adminId : Option Nat)
    (now : Int) (st : DBState) : Except VoucherErr DBState :=
  match st.claims.find? (fun c => c.id == claimId) with
  | none => .error (.genericError "Claim not found")
  | some claim =>
    if claim.status == ClaimStatus.refunded then
      .error (.genericError "Claim already refunded")
    else
      let st1 := { st with claims := st.claims.map (fun c =>
          if c.id == claimId then
            { c with status := ClaimStatus.refunded, refundedAt := some now,
                     refundedBy := adminId, refundReason := some reason }
          else c) }
      let st2 := updateUserClaimed st1 claim.userId (fun c => max 0 (c - 1))
      let st3 : DBState :=
        match claim.voucherCodeId with
        | some cid =>
          { st2 with codes := st2.codes.map (fun c =>
              if c.id == cid then
                { c with usageCount := max 0 (c.usageCount - 1), isUsed := false }
              else c) }
        | none => st2
      let st4 := { st3 with audit := st3.audit ++
          [{ userId := some claim.userId, action := AuditAction.refundAction,
             voucherCode := some claim.voucherCode,
             voucherCodeId := claim.voucherCodeId, claimId := some claimId }] }
      .ok st4

/-- VoucherService.refundVoucher: transaction wrapper with rollback. -/
def refundVoucher (claimId : Nat) (reason : String) (adminId : Option Nat)
    (now : Int) (st : DBState) : Except VoucherErr Unit × DBState :=
  match refundVoucherTx claimId reason adminId now st with
  | .ok st1 => (.ok (), st1)
  | .error e => (.error e, st)

/-- Result record returned by RateLimitService.checkRateLimit. -/
structure RateLimitResult where
  allowed : Bool
  remainingRequests : Int
  resetTime : Int
deriving DecidableEq, Repr

/-- Minimum of a list of scores (the score zrange key 0 0 returns). -/
def listMin? (l : List Int) : Option Int :=
  l.foldl (fun acc s =>
    match acc with
    | none => some s
    | some m => some (min m s)) none

/-- Entries surviving the zremrangebyscore eviction: scores in the closed
range from 0 to now minus the window are removed. -/
def windowKept (entries : List Int) (now windowSeconds : Int) : List Int :=
  entries.filter (fun s => !(0 ≤ s && s ≤ now - windowSeconds * 1000))

/-- ZADD of the current timestamp: the member is the millisecond timestamp
itself, so adding an already-present member leaves the set unchanged. -/
def zaddScore (s : Int) (l : List Int) : List Int :=
  if s ∈ l then l else l ++ [s]

/-- Core of RateLimitService.checkRateLimit: the per-user sliding-window
decision on the sorted set of attempt timestamps.  Returns the result and
the updated set (the current attempt is always recorded). -/
def slidingWindowCheck (entries : List Int) (now : Int) (maxRequests : Nat)
    (windowSeconds : Int) : RateLimitResult × List Int :=
  let kept := windowKept entries now windowSeconds
  let requestCount := kept.length
  let recorded := zaddScore now kept
  if requestCount ≥ maxRequests then
    let resetTime :=
      match listMin? recorded with
      | some o => o + windowSeconds * 1000
      | none => now + windowSeconds * 1000
    ({ allowed := false, remainingRequests := 0, resetTime := resetTime }, recorded)
  else
    ({ allowed := true,
       remainingRequests := (maxRequests : Int) - requestCount - 1,
       resetTime := now + windowSeconds * 1000 }, recorded)

/-- Sliding-window and fixed-window state kept in the key/value store. -/
structure RLState where
  userWindows : List (Nat × List Int)
  ipCounts : List (String × Int)
deriving DecidableEq, Repr

def emptyRL : RLState := ⟨[], []⟩

/-- RateLimitService.checkRateLimit applied to the per-user key. -/
def checkRateLimit (rl : RLState) (uid : Nat) (maxRequests : Nat)
    (windowSeconds : Int) (now : Int) : RateLimitResult × RLState :=
  let entries := ((rl.userWindows.find? (fun p => p.1 == uid)).map (fun p => p.2)).getD []
  let out := slidingWindowCheck entries now maxRequests windowSeconds
  (out.1, { rl with userWindows :=
      (uid, out.2) :: rl.userWindows.filter (fun p => p.1 != uid) })

/-- RateLimitService.checkIPRateLimit: INCR of a fixed-window counter;
admit iff the incremented value does not exceed the maximum. -/
def checkIPRateLimit (rl : RLState) (ip : String) (maxRequests : Int) :
    Bool × RLState :=
  let c := ((rl.ipCounts.find? (fun p => p.1 == ip)).map (fun p => p.2)).getD 0 + 1
  (decide (c ≤ maxRequests),
   { rl with ipCounts := (ip, c) :: rl.ipCounts.filter (fun p => p.1 != ip) })

/-- States of the circuit breaker. -/
inductive CBMode
  | closed
  | opened
  | halfOpen
deriving DecidableEq, Repr

/-- Constructor options of CircuitBreaker (the call timeout is folded into
the action outcome). -/
structure CBOptions where
  failureThreshold : Nat
  successThreshold : Nat
  resetTimeout : Int
deriving DecidableEq, Repr

/-- Options the VoucherService passes to its database circuit breaker. -/
def voucherCBOptions : CBOptions :=
  { failureThreshold := 5, successThreshold := 2, resetTimeout := 30000 }

/-- Mutable counters of CircuitBreaker. -/
structure CBState where
  mode : CBMode
  failureCount : Nat
  successCount : Nat
  nextAttempt : Int
deriving DecidableEq, Repr

/-- Initial breaker state: CLOSED with zero counters. -/
def cbInit : CBState :=
  { mode := CBMode.closed, failureCount := 0, successCount := 0, nextAttempt := 0 }

/-- CircuitBreaker.onSuccess. -/
def cbOnSuccess (o : CBOptions) (cb : CBState) : CBState :=
  let cb1 := { cb with failureCount := 0 }
  if cb1.mode == CBMode.halfOpen then
    if cb1.successCount + 1 ≥ o.successThreshold then
      { cb1 with mode := CBMode.closed, successCount := 0 }
    else
      { cb1 with successCount := cb1.successCount + 1 }
  else cb1

/-- CircuitBreaker.onFailure: increments the failure counter and opens the
breaker only when the counter reaches the failure threshold, whatever the
current state is. -/
def cbOnFailure (o : CBOptions) (now : Int) (cb : CBState) : CBState :=
  let fc := cb.failureCount + 1
  if fc ≥ o.failureThreshold then
    { cb with failureCount := fc, mode := CBMode.opened,
              nextAttempt := now + o.resetTimeout }
  else
    { cb with failureCount := fc }

/-- Outcome of CircuitBreaker.execute. -/
inductive CBOutcome
  | rejected
  | succeeded
  | failed
deriving DecidableEq, Repr

/-- CircuitBreaker.execute with the outcome of the wrapped action given as a
boolean (true: the action returned; false: it threw or timed out). -/
def cbExecute (o : CBOptions) (now : Int) (actionOk : Bool) (cb : CBState) :
    CBOutcome × CBState :=
  if cb.mode == CBMode.opened && now < cb.nextAttempt then
    (CBOutcome.rejected, cb)
  else
    let cb1 := if cb.mode == CBMode.opened then { cb with mode := CBMode.halfOpen } else cb
    if actionOk then (CBOutcome.succeeded, cbOnSuccess o cb1)
    else (CBOutcome.failed, cbOnFailure o now cb1)

/-- Folds a trace of (timestamp, action outcome) calls through the breaker. -/
def cbRun (o : CBOptions) (steps : List (Int × Bool)) (cb : CBState) : CBState :=
  steps.foldl (fun s p => (cbExecute o p.1 p.2 s).2) cb

/-- Whole-system state threaded through the claim coordinator: store, cache,
rate-limit keys, the claim queue and the in-process breaker. -/
structure SysState where
  db : DBState
  cache : CacheState
  rl : RLState
  queue : List ClaimRequest
  cb : CBState
deriving DecidableEq, Repr

/-- QueueService.addClaimJob with jobId equal to the idempotency key: a
duplicate job id is rejected silently. -/
def addClaimJob (queue : List ClaimRequest) (job : ClaimRequest) : List ClaimRequest :=
  if queue.any (fun j => j.idempotencyKey == job.idempotencyKey) then queue
  else queue ++ [job]

/-- Character class of the voucher-code format regex. -/
def isVoucherChar (ch : Char) : Bool :=
  (65 ≤ ch.toNat && ch.toNat ≤ 90) || (48 ≤ ch.toNat && ch.toNat ≤ 57) || ch == '-'

/-- VoucherService.isValidVoucherCodeFormat: length 6..50, uppercase
letters, digits and hyphens only. -/
def isValidVoucherCodeFormat (code : String) : Bool :=
  6 ≤ code.length && code.length ≤ 50 && code.toList.all isVoucherChar

/-- VoucherService.isVoucherCodeValid: the coordinator-side eligibility
check covering active, usage headroom, validity window and the allowed-user
restriction. -/
def isVoucherCodeValid (v : CodeRow) (uid : Nat) (now : Int) : Bool :=
  v.isActive
    && !(v.usageCount ≥ v.usageLimit)
    && !(match v.validFrom with | some vf => vf > now | none => false)
    && !(match v.expiresAt with | some e => e < now | none => false)
    && !(!v.allowedUserIds.isEmpty && !(v.allowedUserIds.contains uid))

/-- VoucherService.getUser: cache-or-store user load; a store miss throws,
a store hit is written back to the cache. -/
def getUserCached (uid : Nat) (db : DBState) (cache : CacheState) :
    Except VoucherErr (UserRow × CacheState) :=
  match getCachedUser cache uid with
  | some u => .ok (u, cache)
  | none =>
    match findActiveUser db uid with
    | none => .error (.genericError "User not found or inactive")
    | some u => .ok (u, setCachedUser cache u)

/-- Response returned when a job is enqueued for a non-premium user. -/
def pendingResponse (requestId : String) : ClaimResponse :=
  { success := true, message := "Claim request queued for processing",
    vouchersRemaining := none, requestId := some requestId,
    status := some RespStatus.pending }

/-- Continuation of claimVoucher after the soft pre-check: format check,
code lookup, eligibility, then dispatch. -/
def claimVoucherValidate (req : ClaimRequest) (now : Int) (sys : SysState) :
    Except VoucherErr ClaimResponse × SysState :=
  if !isValidVoucherCodeFormat req.voucherCode then
    (.error (.invalidVoucher "Invalid voucher code format"), sys)
  else
    match findCodeRow sys.db req.voucherCode with
    | none => (.error (.invalidVoucher "Voucher code not found"), sys)
    | some voucherCode =>
      if !isVoucherCodeValid voucherCode req.userId now then
        (.error (.invalidVoucher "Voucher code is not valid or has expired"), sys)
      else
        match getUserCached req.userId sys.db sys.cache with
        | .error e => (.error e, sys)
        | .ok (user, cache4) =>
          let sys4 := { sys with cache := cache4 }
          if user.isPremium then
            if sys4.cb.mode == CBMode.opened && now < sys4.cb.nextAttempt then
              (.error (.genericError "Circuit breaker is OPEN"), sys4)
            else
              let cb1 := if sys4.cb.mode == CBMode.opened then
                  { sys4.cb with mode := CBMode.halfOpen } else sys4.cb
              match processClaimImmediateTx req now sys4.db sys4.cache with
              | .error e =>
                (.error e, { sys4 with cb := cbOnFailure voucherCBOptions now cb1 })
              | .ok (result, db5, cache5) =>
                (.ok result,
                 { sys4 with db := db5,
                             cache := cacheClaimResult cache5 req.idempotencyKey result,
                             cb := cbOnSuccess voucherCBOptions cb1 })
          else
            (.ok (pendingResponse req.idempotencyKey),
             { sys4 with queue := addClaimJob sys4.queue req })

/-- VoucherService.claimVoucher: idempotency lookup, user and IP rate
limits, cached-count soft pre-check, format and eligibility validation,
then the premium fast path through the circuit breaker or the queue branch.
All calls share a single observation instant. -/
def claimVoucher (req : ClaimRequest) (now : Int) (sys : SysState) :
    Except VoucherErr ClaimResponse × SysState :=
  match getClaimResult sys.cache req.idempotencyKey with
  | some cached => (.ok cached, sys)
  | none =>
    let rlOut := checkRateLimit sys.rl req.userId 10 60 now
    let sys1 := { sys with rl := rlOut.2 }
    if !rlOut.1.allowed then
      (.error (.rateLimited "Rate limit exceeded"), sys1)
    else
      let ipOut := checkIPRateLimit sys1.rl req.ipAddress 100
      let sys2 := { sys1 with rl := ipOut.2 }
      if !ipOut.1 then
        (.error (.rateLimited "Too many requests from this IP"), sys2)
      else
        match getUserVoucherCount sys2.cache req.userId with
        | some cachedCount =>
          match getUserCached req.userId sys2.db sys2.cache with
          | .error e => (.error e, sys2)
          | .ok (user, cache3) =>
            let sys3 := { sys2 with cache := cache3 }
            if cachedCount ≥ user.voucherLimit then
              (.error .limitExceeded, sys3)
            else claimVoucherValidate req now sys3
        | none => claimVoucherValidate req now sys2

/-- Current vouchers_claimed of a user, read from the store. -/
def userClaimedCount (st : DBState) (uid : Nat) : Option Int :=
  (st.users.find? (fun u => u.id == uid)).map (fun u => u.vouchersClaimed)

/-- Current usage_count of a voucher code, read from the store. -/
def codeUsageCount (st : DBState) (code : String) : Option Int :=
  (findCodeRow st code).map (fun c => c.usageCount)

/-- Number of success claim rows for a (user, code) pair. -/
def successClaimsFor (st : DBState) (uid : Nat) (code : String) : Nat :=
  (st.claims.filter (fun cl =>
    cl.userId == uid && cl.voucherCode == code && cl.status == ClaimStatus.success)).length

/-- Number of success claim rows carrying a given request id. -/
def successClaimsWithRequestId (st : DBState) (rid : String) : Nat :=
  (st.claims.filter (fun cl =>
    cl.requestId == rid && cl.status == ClaimStatus.success)).length

/-- Number of audit rows with a given action. -/
def auditCount (st : DBState) (a : AuditAction) : Nat :=
  (st.audit.filter (fun r => r.action == a)).length

/-- Status of a claim row by id. -/
def claimStatusOf (st : DBState) (cid : Nat) : Option ClaimStatus :=
  (st.claims.find? (fun c => c.id == cid)).map (fun c => c.status)

/-- Invariant P1 of the spec: every committed user state satisfies
0 ≤ claimed ≤ limit. -/
def UserInv (st : DBState) : Prop :=
  ∀ u ∈ st.users, 0 ≤ u.vouchersClaimed ∧ u.vouchersClaimed ≤ u.voucherLimit

instance : DecidablePred UserInv := fun st =>
  inferInstanceAs (Decidable (∀ u ∈ st.users, _ ∧ _))

/-- Well-formedness of the users table: id is the primary key. -/
def UsersIdNodup (st : DBState) : Prop :=
  (st.users.map UserRow.id).Nodup

instance : DecidablePred UsersIdNodup := fun st =>
  inferInstanceAs (Decidable (List.Nodup _))

/-- Store-level operations of the claim and refund pipelines. -/
inductive Op
  | claimFast (req : ClaimRequest) (now : Int)
  | claimQueued (req : ClaimRequest) (now : Int)
  | refundOp (claimId : Nat) (reason : String) (adminId : Option Nat) (now : Int)

/-- Committed store state after one operation (errors roll back). -/
def applyOp (st : DBState) : Op → DBState
  | Op.claimFast req now => (processClaimImmediate req now st emptyCache).2.1
  | Op.claimQueued req now => (processJob req now st emptyCache).2.1
  | Op.refundOp cid reason adminId now => (refundVoucher cid reason adminId now st).2

/-- Committed store state after a sequence of operations. -/
def applyOps (st : DBState) (ops : List Op) : DBState :=
  ops.foldl applyOp st

/-- Sample premium user u3 of the happy-path scenario. -/
def userU3 : UserRow :=
  { id := 3, vouchersClaimed := 0, voucherLimit := 10, isPremium := true, isActive := true }

/-- Sample user u5 sitting at the claim limit. -/
def userU5 : UserRow :=
  { id := 5, vouchersClaimed := 10, voucherLimit := 10, isPremium := true, isActive := true }

/-- Sample voucher code SUMMER2024 with plenty of headroom. -/
def codeSummer : CodeRow :=
  { id := 1, code := "SUMMER2024", isActive := true, isUsed := false, usedBy := none,
    usageLimit := 1000, usageCount := 0, validFrom := none, expiresAt := none,
    allowedUserIds := [] }

/-- Sample voucher code whose validity window has not started yet. -/
def codeVipFuture : CodeRow :=
  { id := 2, code := "VIPFUTURE-10", isActive := true, isUsed := false, usedBy := none,
    usageLimit := 10, usageCount := 0, validFrom := some 5000, expiresAt := none,
    allowedUserIds := [] }

/-- Happy-path store: u3 with SUMMER2024, no claims yet. -/
def stHappy : DBState :=
  { users := [userU3], codes := [codeSummer], claims := [], audit := [], nextClaimId := 0 }

/-- Happy-path request with idempotency key r1. -/
def reqR1 : ClaimRequest :=
  { userId := 3, voucherCode := "SUMMER2024", ipAddress := "10.0.0.1",
    userAgent := "agent", deviceId := none, idempotencyKey := "r1" }

/-- Store with u5 at the limit. -/
def stLimit : DBState :=
  { users := [userU5], codes := [codeSummer], claims := [], audit := [], nextClaimId := 0 }

/-- Request of user u5. -/
def reqU5 : ClaimRequest :=
  { userId := 5, voucherCode := "SUMMER2024", ipAddress := "10.0.0.2",
    userAgent := "agent", deviceId := none, idempotencyKey := "r5" }

/-- Store where u3 already holds a success claim for SUMMER2024. -/
def stDup : DBState :=
  { users := [userU3], codes := [codeSummer],
    claims := [{ id := 7, userId := 3, voucherCode := "SUMMER2024",
                 voucherCodeId := some 1, status := ClaimStatus.success,
                 requestId := "r0", refundedAt := none, refundedBy := none,
                 refundReason := none }],
    audit := [], nextClaimId := 8 }

/-- Duplicate attempt by u3 for SUMMER2024 under a fresh request id. -/
def reqDup : ClaimRequest :=
  { userId := 3, voucherCode := "SUMMER2024", ipAddress := "10.0.0.3",
    userAgent := "agent", deviceId := none, idempotencyKey := "r2" }

/-- Store with the not-yet-valid code. -/
def stVip : DBState :=
  { users := [userU3], codes := [codeVipFuture], claims := [], audit := [], nextClaimId := 0 }

/-- Request of u3 for the not-yet-valid code. -/
def reqVip : ClaimRequest :=
  { userId := 3, voucherCode := "VIPFUTURE-10", ipAddress := "10.0.0.4",
    userAgent := "agent", deviceId := none, idempotencyKey := "r9" }

/-- Full system state for the happy path: empty caches, empty windows,
closed breaker. -/
def sysHappy : SysState :=
  { db := stHappy, cache := emptyCache, rl := emptyRL, queue := [], cb := cbInit }

/-- Response of the happy-path claim (limit 10, first claim). -/
def respHappy : ClaimResponse :=
  { success := true, message := "Voucher claimed successfully",
    vouchersRemaining := some 9, requestId := none,
    status := some RespStatus.success }

/-- System state after the happy-path claim. -/
def sysHappy1 : SysState := (claimVoucher reqR1 1000 sysHappy).2

/-- Store after the happy-path fast claim. -/
def stAfterClaim : DBState := (processClaimImmediate reqR1 1000 stHappy emptyCache).2.1

/-- Store after refunding the happy-path claim. -/
def stAfterRefund : DBState := (refundVoucher 0 "fraud" none 2000 stAfterClaim).2

/-- Sample inactive voucher code. -/
def codeInactive : CodeRow :=
  { id := 4, code := "OFFLINE-CODE", isActive := false, isUsed := false, usedBy := none,
    usageLimit := 10, usageCount := 0, validFrom := none, expiresAt := none,
    allowedUserIds := [] }

/-- Sample expired voucher code. -/
def codeExpired : CodeRow :=
  { id := 5, code := "EXPIRED2023", isActive := true, isUsed := false, usedBy := none,
    usageLimit := 1000, usageCount := 0, validFrom := none, expiresAt := some 500,
    allowedUserIds := [] }

/-- Sample exhausted voucher code. -/
def codeExhausted : CodeRow :=
  { id := 6, code := "FULL-CODE-1", isActive := true, isUsed := true, usedBy := none,
    usageLimit := 5, usageCount := 5, validFrom := none, expiresAt := none,
    allowedUserIds := [] }

/-- Store with the inactive code. -/
def stInactive : DBState :=
  { users := [userU3], codes := [codeInactive], claims := [], audit := [], nextClaimId := 0 }

/-- Request for the inactive code. -/
def reqInactive : ClaimRequest :=
  { userId := 3, voucherCode := "OFFLINE-CODE", ipAddress := "10.0.0.5",
    userAgent := "agent", deviceId := none, idempotencyKey := "ri" }

/-- Store with the expired code. -/
def stExpired : DBState :=
  { users := [userU3], codes := [codeExpired], claims := [], audit := [], nextClaimId := 0 }

/-- Request for the expired code. -/
def reqExpired : ClaimRequest :=
  { userId := 3, voucherCode := "EXPIRED2023", ipAddress := "10.0.0.6",
    userAgent := "agent", deviceId := none, idempotencyKey := "re" }

/-- Store with the exhausted code. -/
def stExhausted : DBState :=
  { users := [userU3], codes := [codeExhausted], claims := [], audit := [], nextClaimId := 0 }

/-- Request for the exhausted code. -/
def reqExhausted : ClaimRequest :=
  { userId := 3, voucherCode := "FULL-CODE-1", ipAddress := "10.0.0.7",
    userAgent := "agent", deviceId := none, idempotencyKey := "rx" }

/-- Operation sequence exercising claim, refund and a queued job. -/
def opsRoundTrip : List Op :=
  [Op.claimFast reqR1 1000, Op.refundOp 0 "fraud" none 2000,
   Op.claimQueued reqU5 3000]

lemma users_triggerLogClaim (st : DBState) (cl : ClaimRow) :
    (triggerLogClaim st cl).users = st.users := rfl

lemma users_triggerIncrementUsage (st : DBState) (cl : ClaimRow) :
    (triggerIncrementUsage st cl).users = st.users := by
  unfold triggerIncrementUsage
  split
  · rfl
  · split <;> rfl

lemma users_insertClaim (st : DBState) (cl : ClaimRow) :
    (insertClaim st cl).users = st.users := by
  unfold insertClaim
  rw [users_triggerIncrementUsage, users_triggerLogClaim]

lemma users_updateCodeUsageFast (st : DBState) (cid uid : Nat) :
    (updateCodeUsageFast st cid uid).users = st.users := rfl

lemma users_updateCodeUsageWorker (st : DBState) (cid : Nat) :
    (updateCodeUsageWorker st cid).users = st.users := rfl

lemma claims_triggerIncrementUsage (st : DBState) (cl : ClaimRow) :
    (triggerIncrementUsage st cl).claims = st.claims := by
  unfold triggerIncrementUsage
  split
  · rfl
  · split <;> rfl

lemma claims_triggerLogClaim (st : DBState) (cl : ClaimRow) :
    (triggerLogClaim st cl).claims = st.claims := rfl

lemma claims_insertClaim (st : DBState) (cl : ClaimRow) :
    (insertClaim st cl).claims = st.claims ++ [cl] := by
  unfold insertClaim
  rw [claims_triggerIncrementUsage, claims_triggerLogClaim]

lemma getClaimResult_cacheClaimResult (c : CacheState) (key : String) (r : ClaimResponse) :
    getClaimResult (cacheClaimResult c key r) key = some r := by
  simp [getClaimResult, cacheClaimResult]

/-- C2.  Evaluation of the fast-path claim transaction on the happy-path
fixture (user 3 with claimed 0, limit 10; SUMMER2024 with usage_count 0,
usage_limit 1000; request id r1).  The claimed count rises by exactly 1 and
exactly one success row carries r1, but usage_count rises to 2: the
explicit UPDATE and the AFTER INSERT trigger of the schema both increment
it, contradicting the claim that it rises by exactly 1 (not 2). -/
theorem C2_usage_double_increment :
    (processClaimImmediate reqR1 1000 stHappy emptyCache).1 = .ok respHappy
    ∧ userClaimedCount stAfterClaim 3 = some 1
    ∧ codeUsageCount stHappy "SUMMER2024" = some 0
    ∧ codeUsageCount stAfterClaim "SUMMER2024" = some 2
    ∧ successClaimsWithRequestId stAfterClaim "r1" = 1 :=
  ⟨rfl, rfl, rfl, rfl, rfl⟩

/-- C4 counterexample.  User 5 sits at the limit (claimed 10 = limit 10).
The fast-path transaction fails with LIMIT_EXCEEDED and leaves every table
unchanged — in particular the audit log: zero rows with action
LIMIT_REACHED are appended, not exactly one as the claim states. -/
theorem C4_counterexample :
    processClaimImmediate reqU5 1000 stLimit emptyCache =
      (.error .limitExceeded, stLimit, emptyCache)
    ∧ auditCount (processClaimImmediate reqU5 1000 stLimit emptyCache).2.1
        AuditAction.limitReached = 0 :=
  ⟨rfl, rfl⟩

/-- C8.  Claim/refund round trip on the happy-path fixture.  The refund
flips the claim to refunded, restores claimed to 0, appends one REFUND
audit row, and a second refund fails leaving the state unchanged — but
usage_count ends at 1, not at its pre-claim value 0, because the claim
path double-increments it and the refund removes only 1. -/
theorem C8_roundtrip_divergence :
    codeUsageCount stHappy "SUMMER2024" = some 0
    ∧ claimStatusOf stAfterRefund 0 = some ClaimStatus.refunded
    ∧ userClaimedCount stAfterRefund 3 = some 0
    ∧ codeUsageCount stAfterRefund "SUMMER2024" = some 1
    ∧ auditCount stAfterRefund AuditAction.refundAction = 1
    ∧ refundVoucher 0 "again" none 3000 stAfterRefund =
        (.error (.genericError "Claim already refunded"), stAfterRefund) :=
  ⟨rfl, rfl, rfl, rfl, rfl, rfl⟩

/-- C1 counterexample.  User 3 already holds a success claim for
SUMMER2024 (store stDup); a queued worker job for the same pair under a
fresh request id commits a second success row and reports success instead
of failing with INVALID_VOUCHER. -/
theorem C1_counterexample :
    hasSuccessClaim stDup 3 "SUMMER2024" = true
    ∧ (processJob reqDup 1000 stDup emptyCache).1 = .ok respHappy
    ∧ successClaimsFor (processJob reqDup 1000 stDup emptyCache).2.1 3 "SUMMER2024" = 2 :=
  ⟨rfl, rfl, rfl⟩

/-- C7 counterexample.  The code VIPFUTURE-10 has valid_from = 5000, so at
now = 1000 it fails the V2 eligibility check of the coordinator, yet the
fast-path transaction commits the claim: the in-transaction re-check never
reads valid_from (nor allowed_user_ids). -/
theorem C7_counterexample :
    isVoucherCodeValid codeVipFuture 3 1000 = false
    ∧ (processClaimImmediate reqVip 1000 stVip emptyCache).1 = .ok respHappy
    ∧ userClaimedCount (processClaimImmediate reqVip 1000 stVip emptyCache).2.1 3 = some 1 :=
  ⟨rfl, rfl, rfl⟩

/-- C6 counterexample.  One prior attempt at 1000, a new attempt at 2000,
ceiling 2 over a 60 s window: the attempt is admitted and the returned
reset is now + window (62000), not oldestScore + window (61000) as the
claim states. -/
theorem C6_counterexample :
    (slidingWindowCheck [1000] 2000 2 60).1 =
      { allowed := true, remainingRequests := 0, resetTime := 62000 }
    ∧ listMin? (slidingWindowCheck [1000] 2000 2 60).2 = some 1000
    ∧ (62000 : Int) ≠ 1000 + 60 * 1000 :=
  ⟨rfl, rfl, by decide⟩

/-- C9 counterexample.  Five failures open the breaker (nextAttempt 30000);
a successful probe at 30000 moves it to Half-Open and resets the failure
counter; the next failure at 30001 then leaves the breaker in Half-Open
with nextAttempt unchanged, instead of transitioning back to Open with an
extended nextAttempt as the claim states. -/
theorem C9_counterexample :
    cbRun voucherCBOptions
        [(0, false), (0, false), (0, false), (0, false), (0, false), (30000, true)] cbInit
      = { mode := CBMode.halfOpen, failureCount := 0, successCount := 1, nextAttempt := 30000 }
    ∧ (cbExecute voucherCBOptions 30001 false
        { mode := CBMode.halfOpen, failureCount := 0, successCount := 1, nextAttempt := 30000 }).2
      = { mode := CBMode.halfOpen, failureCount := 1, successCount := 1, nextAttempt := 30000 }
    ∧ CBMode.halfOpen ≠ CBMode.opened :=
  ⟨rfl, rfl, by decide⟩

/-- C4 (amended).  When the authoritative in-transaction check finds
claimed at or above the limit, the fast path fails with LIMIT_EXCEEDED and
the worker path returns a completed limit_reached result which it caches
under the idempotency key; in both cases the store is left completely
unchanged, so no audit row (in particular none with action LIMIT_REACHED)
is appended — only the in-process limit-violation metric is emitted. -/
theorem C4_amended (req : ClaimRequest) (now : Int) (st : DBState)
    (cache : CacheState) (u : UserRow)
    (hfind : findActiveUser st req.userId = some u)
    (hlim : u.vouchersClaimed ≥ u.voucherLimit) :
    processClaimImmediate req now st cache = (.error .limitExceeded, st, cache)
    ∧ processJob req now st cache =
        (.ok workerLimitResponse, st,
         cacheClaimResult cache req.idempotencyKey workerLimitResponse) := by
  have htx1 : processClaimImmediateTx req now st cache = .error .limitExceeded := by
    simp only [processClaimImmediateTx, hfind, if_pos hlim]
  have htx2 : processJobTx req now st cache = .ok (workerLimitResponse, st, cache) := by
    simp only [processJobTx, hfind, if_pos hlim]
  exact ⟨by simp [processClaimImmediate, htx1], by simp [processJob, htx2]⟩

/-- C4 witness: user 5 at claimed 10 = limit 10, both paths evaluated. -/
theorem C4_witness :
    processClaimImmediate reqU5 1000 stLimit emptyCache =
      (.error .limitExceeded, stLimit, emptyCache)
    ∧ processJob reqU5 1000 stLimit emptyCache =
        (.ok workerLimitResponse, stLimit,
         cacheClaimResult emptyCache "r5" workerLimitResponse) :=
  C4_amended reqU5 1000 stLimit emptyCache userU5 rfl (by decide)

/-- C9 (amended).  In Half-Open, a failure of the wrapped action moves the
breaker back to Open and sets nextAttempt to now + resetTimeout only when
the incremented failure counter reaches failureThreshold; the counter is
retained from the Open transition, so the first Half-Open failure with no
intervening success does reopen, but any Half-Open success resets the
counter to zero, after which a failure leaves the breaker in Half-Open with
nextAttempt unchanged. -/
theorem C9_amended (o : CBOptions) (now : Int) (cb : CBState)
    (hmode : cb.mode = CBMode.halfOpen) :
    (o.failureThreshold ≤ cb.failureCount + 1 →
      (cbExecute o now false cb).2 =
        { cb with mode := CBMode.opened, failureCount := cb.failureCount + 1,
                  nextAttempt := now + o.resetTimeout })
    ∧ (cb.failureCount + 1 < o.failureThreshold →
      (cbExecute o now false cb).2 = { cb with failureCount := cb.failureCount + 1 }) := by
  have hne : (cb.mode == CBMode.opened) = false := by rw [hmode]; rfl
  constructor
  · intro h
    simp [cbExecute, cbOnFailure, hne, h]
  · intro h
    simp [cbExecute, cbOnFailure, hne, Nat.not_le.mpr h]

/-- C9 witness: with the breaker options of the service (threshold 5), a
Half-Open failure at counter 4 reopens with nextAttempt 200 + 30000, while
a Half-Open failure right after a success (counter reset to 0) leaves the
breaker Half-Open. -/
theorem C9_witness :
    (cbExecute voucherCBOptions 200 false
        { mode := CBMode.halfOpen, failureCount := 4, successCount := 0, nextAttempt := 100 }).2
      = { mode := CBMode.opened, failureCount := 5, successCount := 0, nextAttempt := 30200 }
    ∧ (cbExecute voucherCBOptions 200 false
        { mode := CBMode.halfOpen, failureCount := 0, successCount := 1, nextAttempt := 100 }).2
      = { mode := CBMode.halfOpen, failureCount := 1, successCount := 1, nextAttempt := 100 } := by
  have h1 := C9_amended voucherCBOptions 200
    { mode := CBMode.halfOpen, failureCount := 4, successCount := 0, nextAttempt := 100 } rfl
  have h2 := C9_amended voucherCBOptions 200
    { mode := CBMode.halfOpen, failureCount := 0, successCount := 1, nextAttempt := 100 } rfl
  refine ⟨?_, h2.2 (by decide)⟩
  rw [h1.1 (by decide)]
  decide

/-- C6 (amended).  With n the number of recorded attempts still inside the
window before the current attempt is added: the attempt is admitted iff
n < max; on admission remaining = max − n − 1 and reset = now +
window·1000; on denial remaining = 0 and reset = oldest score after the
current attempt was added + window·1000 (falling back to now + window·1000
on an empty set). -/
theorem C6_amended (entries : List Int) (now : Int) (maxRequests : Nat)
    (windowSeconds : Int) :
    ((slidingWindowCheck entries now maxRequests windowSeconds).1.allowed = true
       ↔ (windowKept entries now windowSeconds).length < maxRequests)
    ∧ ((windowKept entries now windowSeconds).length < maxRequests →
       (slidingWindowCheck entries now maxRequests windowSeconds).1 =
         { allowed := true,
           remainingRequests :=
             (maxRequests : Int) - (windowKept entries now windowSeconds).length - 1,
           resetTime := now + windowSeconds * 1000 })
    ∧ (maxRequests ≤ (windowKept entries now windowSeconds).length →
       (slidingWindowCheck entries now maxRequests windowSeconds).1 =
         { allowed := false, remainingRequests := 0,
           resetTime :=
             (listMin? (zaddScore now (windowKept entries now windowSeconds))).getD now
               + windowSeconds * 1000 }) := by
  by_cases h : (windowKept entries now windowSeconds).length ≥ maxRequests
  · refine ⟨?_, fun hlt => absurd h (by omega), fun _ => ?_⟩
    · simp [slidingWindowCheck, if_pos h]
      omega
    · simp only [slidingWindowCheck, if_pos h]
      cases hmin : listMin? (zaddScore now (windowKept entries now windowSeconds)) <;>
        simp [hmin]
  · refine ⟨?_, fun _ => ?_, fun hge => absurd hge h⟩
    · simp [slidingWindowCheck, if_neg h]
      omega
    · simp only [slidingWindowCheck, if_neg h]

/-- C6 witness: one attempt at 1000 in the window, new attempt at 2000,
ceiling 2: admitted with remaining 0 and reset 62000; with two attempts
already recorded the request is denied with reset 61000. -/
theorem C6_witness :
    (slidingWindowCheck [1000] 2000 2 60).1 =
      { allowed := true, remainingRequests := 0, resetTime := 62000 }
    ∧ (slidingWindowCheck [1000, 1500] 2000 2 60).1 =
      { allowed := false, remainingRequests := 0, resetTime := 61000 } := by
  have h1 := (C6_amended [1000] 2000 2 60).2.1 (by decide)
  have h2 := (C6_amended [1000, 1500] 2000 2 60).2.2 (by decide)
  rw [h1, h2]
  exact ⟨rfl, rfl⟩

/-- C10.  When the worker finds claimed at or above the limit it returns a
completed result (success false, status limit_reached) instead of throwing,
leaves the store unchanged, and caches that negative result under the
idempotency key; any later claimVoucher call carrying the same request id —
against any store, rate-limit, queue and breaker state — is answered from
the cache with that same limit_reached result and no state change. -/
theorem C10_worker_limit_cached (job : ClaimRequest) (now : Int) (st : DBState)
    (cache : CacheState) (u : UserRow)
    (hfind : findActiveUser st job.userId = some u)
    (hlim : u.vouchersClaimed ≥ u.voucherLimit) :
    processJob job now st cache =
      (.ok workerLimitResponse, st,
       cacheClaimResult cache job.idempotencyKey workerLimitResponse)
    ∧ ∀ (db2 : DBState) (rl : RLState) (q : List ClaimRequest) (cb : CBState)
        (req2 : ClaimRequest) (now2 : Int),
        req2.idempotencyKey = job.idempotencyKey →
        claimVoucher req2 now2
          { db := db2, cache := cacheClaimResult cache job.idempotencyKey workerLimitResponse,
            rl := rl, queue := q, cb := cb }
          = (.ok workerLimitResponse,
             { db := db2,
               cache := cacheClaimResult cache job.idempotencyKey workerLimitResponse,
               rl := rl, queue := q, cb := cb }) := by
  have htx : processJobTx job now st cache = .ok (workerLimitResponse, st, cache) := by
    simp only [processJobTx, hfind, if_pos hlim]
  constructor
  · simp [processJob, htx]
  · intro db2 rl q cb req2 now2 hkey
    have hlook : getClaimResult
        (cacheClaimResult cache job.idempotencyKey workerLimitResponse)
        req2.idempotencyKey = some workerLimitResponse := by
      rw [hkey]; exact getClaimResult_cacheClaimResult _ _ _
    simp [claimVoucher, hlook]

/-- C10 witness: worker job of user 5 at the limit; the cached negative
result is then replayed by claimVoucher at a much later time against a
store in which user 5 does not even exist. -/
theorem C10_witness :
    processJob reqU5 1000 stLimit emptyCache =
      (.ok workerLimitResponse, stLimit,
       cacheClaimResult emptyCache "r5" workerLimitResponse)
    ∧ claimVoucher reqU5 99999
        { db := stHappy, cache := cacheClaimResult emptyCache "r5" workerLimitResponse,
          rl := emptyRL, queue := [], cb := cbInit }
        = (.ok workerLimitResponse,
           { db := stHappy, cache := cacheClaimResult emptyCache "r5" workerLimitResponse,
             rl := emptyRL, queue := [], cb := cbInit }) := by
  have h := C10_worker_limit_cached reqU5 1000 stLimit emptyCache userU5 rfl (by decide)
  exact ⟨h.1, h.2 stHappy emptyRL [] cbInit reqU5 99999 rfl⟩

/-- C7 (amended).  On the locked voucher row the fast-path transaction
re-checks only three of the V2 conditions — active, not expired
(expires_at strictly before now), and usage_count below usage_limit — each
failing with INVALID_VOUCHER and its precise reason; when those three hold
(and no prior success claim exists) the transaction commits even if
valid_from lies in the future or the user is outside allowed_user_ids,
since the transaction never reads those columns.  The worker path checks
the same three conditions but fails with one generic error. -/
theorem C7_amended (req : ClaimRequest) (now : Int) (st : DBState)
    (cache : CacheState) (u : UserRow) (v : CodeRow)
    (hfind : findActiveUser st req.userId = some u)
    (hlt : u.vouchersClaimed < u.voucherLimit)
    (hcode : findCodeRow st req.voucherCode = some v) :
    (v.isActive = false →
      (processClaimImmediate req now st cache).1 =
        .error (.invalidVoucher "Voucher code is inactive"))
    ∧ (v.isActive = true → isExpired v.expiresAt now = true →
      (processClaimImmediate req now st cache).1 =
        .error (.invalidVoucher "Voucher code has expired"))
    ∧ (v.isActive = true → isExpired v.expiresAt now = false →
       v.usageLimit ≤ v.usageCount →
      (processClaimImmediate req now st cache).1 =
        .error (.invalidVoucher "Voucher code usage limit reached"))
    ∧ (v.isActive = true → isExpired v.expiresAt now = false →
       v.usageCount < v.usageLimit →
       hasSuccessClaim st req.userId req.voucherCode = false →
      (processClaimImmediate req now st cache).1 =
        .ok { success := true, message := "Voucher claimed successfully",
              vouchersRemaining := some (u.voucherLimit - (u.vouchersClaimed + 1)),
              requestId := none, status := some RespStatus.success })
    ∧ ((v.isActive = false ∨ isExpired v.expiresAt now = true
        ∨ v.usageLimit ≤ v.usageCount) →
      (processJob req now st cache).1 =
        .error (.genericError "Voucher code is not valid")) := by
  have hnl := not_le.mpr hlt
  refine ⟨?_, ?_, ?_, ?_, ?_⟩
  · intro hina
    have htx : processClaimImmediateTx req now st cache =
        .error (.invalidVoucher "Voucher code is inactive") := by
      simp [processClaimImmediateTx, hfind, hcode, hnl, hina]
    simp [processClaimImmediate, htx]
  · intro hact hexp
    have htx : processClaimImmediateTx req now st cache =
        .error (.invalidVoucher "Voucher code has expired") := by
      simp [processClaimImmediateTx, hfind, hcode, hnl, hact, hexp]
    simp [processClaimImmediate, htx]
  · intro hact hexp husage
    have htx : processClaimImmediateTx req now st cache =
        .error (.invalidVoucher "Voucher code usage limit reached") := by
      simp [processClaimImmediateTx, hfind, hcode, hnl, hact, hexp, husage]
    simp [processClaimImmediate, htx]
  · intro hact hexp husage hnoclaim
    simp [processClaimImmediate, processClaimImmediateTx, hfind, hcode, hnl,
      hact, hexp, not_le.mpr husage, hnoclaim]
  · intro hbad
    have hcond : (!v.isActive || isExpired v.expiresAt now
        || decide (v.usageCount ≥ v.usageLimit)) = true := by
      rcases hbad with hb | hb | hb <;> simp [hb]
    have htx : processJobTx req now st cache =
        .error (.genericError "Voucher code is not valid") := by
      simp only [processJobTx, hfind, hcode, if_neg hnl]
      rw [if_pos hcond]
    simp [processJob, htx]

/-- C7 witness: each of the three in-transaction rejections with its
precise reason, the commit of a code whose valid_from lies in the future,
and the generic worker rejection of an expired code. -/
theorem C7_witness :
    (processClaimImmediate reqInactive 1000 stInactive emptyCache).1 =
      .error (.invalidVoucher "Voucher code is inactive")
    ∧ (processClaimImmediate reqExpired 1000 stExpired emptyCache).1 =
      .error (.invalidVoucher "Voucher code has expired")
    ∧ (processClaimImmediate reqExhausted 1000 stExhausted emptyCache).1 =
      .error (.invalidVoucher "Voucher code usage limit reached")
    ∧ (processClaimImmediate reqVip 1000 stVip emptyCache).1 = .ok respHappy
    ∧ (processJob reqExpired 1000 stExpired emptyCache).1 =
      .error (.genericError "Voucher code is not valid") := by
  have h1 := C7_amended reqInactive 1000 stInactive emptyCache userU3 codeInactive
    rfl (by decide) rfl
  have h2 := C7_amended reqExpired 1000 stExpired emptyCache userU3 codeExpired
    rfl (by decide) rfl
  have h3 := C7_amended reqExhausted 1000 stExhausted emptyCache userU3 codeExhausted
    rfl (by decide) rfl
  have h4 := C7_amended reqVip 1000 stVip emptyCache userU3 codeVipFuture
    rfl (by decide) rfl
  exact ⟨h1.1 rfl, h2.2.1 rfl rfl, h3.2.2.1 rfl rfl (by decide),
    h4.2.2.2.1 rfl rfl (by decide) rfl, h2.2.2.2.2 (Or.inr (Or.inl rfl))⟩

/-- C1 (amended).  On the premium fast path the transaction fails with
INVALID_VOUCHER (already claimed) and leaves all state unchanged whenever a
prior success row for the (user, code) pair exists; the queued worker path
performs no already-claimed check, so under the same circumstances it
commits a second success row for the pair and reports success. -/
theorem C1_amended (req : ClaimRequest) (now : Int) (st : DBState)
    (cache : CacheState) (u : UserRow) (v : CodeRow)
    (hfind : findActiveUser st req.userId = some u)
    (hlt : u.vouchersClaimed < u.voucherLimit)
    (hcode : findCodeRow st req.voucherCode = some v)
    (hact : v.isActive = true)
    (hexp : isExpired v.expiresAt now = false)
    (husage : v.usageCount < v.usageLimit)
    (hdup : hasSuccessClaim st req.userId req.voucherCode = true) :
    processClaimImmediate req now st cache =
      (.error (.invalidVoucher "You have already claimed this voucher"), st, cache)
    ∧ (processJob req now st cache).1 =
      .ok { success := true, message := "Voucher claimed successfully",
            vouchersRemaining := some (u.voucherLimit - (u.vouchersClaimed + 1)),
            requestId := none, status := some RespStatus.success }
    ∧ successClaimsFor (processJob req now st cache).2.1 req.userId req.voucherCode
        = successClaimsFor st req.userId req.voucherCode + 1 := by
  have hnl := not_le.mpr hlt
  have hnu := not_le.mpr husage
  have htx : processClaimImmediateTx req now st cache =
      .error (.invalidVoucher "You have already claimed this voucher") := by
    simp [processClaimImmediateTx, hfind, hcode, hnl, hact, hexp, hnu, hdup]
  refine ⟨by simp [processClaimImmediate, htx], ?_, ?_⟩
  · simp [processJob, processJobTx, hfind, hcode, hnl, hact, hexp, hnu]
  · simp only [processJob, processJobTx, hfind, if_neg hnl, hcode]
    rw [if_neg (by simp [hact, hexp, hnu])]
    simp only [successClaimsFor, claims_insertClaim]
    simp [updateUserClaimed, updateCodeUsageWorker, List.filter_append]

/-- C1 witness: in store stDup (user 3 already holds a success claim for
SUMMER2024) the fast path rejects with the already-claimed reason, while a
worker job commits a second success row for the same pair. -/
theorem C1_witness :
    processClaimImmediate reqDup 1000 stDup emptyCache =
      (.error (.invalidVoucher "You have already claimed this voucher"), stDup, emptyCache)
    ∧ (processJob reqDup 1000 stDup emptyCache).1 = .ok respHappy
    ∧ successClaimsFor (processJob reqDup 1000 stDup emptyCache).2.1 3 "SUMMER2024"
        = successClaimsFor stDup 3 "SUMMER2024" + 1 :=
  C1_amended reqDup 1000 stDup emptyCache userU3 codeSummer rfl (by decide) rfl rfl rfl
    (by decide) rfl

lemma validate_success_cached (req : ClaimRequest) (now : Int) (sys sys1 : SysState)
    (r : ClaimResponse)
    (h : claimVoucherValidate req now sys = (.ok r, sys1))
    (hs : r.status = some RespStatus.success) :
    getClaimResult sys1.cache req.idempotencyKey = some r := by
  unfold claimVoucherValidate at h
  split at h
  · simp at h
  · split at h
    · simp at h
    · split at h
      · simp at h
      · split at h
        · simp at h
        · split at h
          · dsimp only at h
            split at h
            · simp at h
            · split at h
              · simp at h
              · simp only [Prod.mk.injEq, Except.ok.injEq] at h
                obtain ⟨hr, hsys⟩ := h
                subst hr
                subst hsys
                exact getClaimResult_cacheClaimResult _ _ _
          · simp only [Prod.mk.injEq, Except.ok.injEq] at h
            obtain ⟨hr, hsys⟩ := h
            subst hr
            simp [pendingResponse] at hs

lemma claimVoucher_success_cached (req : ClaimRequest) (now : Int) (sys sys1 : SysState)
    (r : ClaimResponse)
    (h : claimVoucher req now sys = (.ok r, sys1))
    (hs : r.status = some RespStatus.success) :
    getClaimResult sys1.cache req.idempotencyKey = some r := by
  cases hlook : getClaimResult sys.cache req.idempotencyKey with
  | some cached =>
    have hcv : claimVoucher req now sys = (.ok cached, sys) := by
      unfold claimVoucher
      simp only [hlook]
    rw [hcv] at h
    simp only [Prod.mk.injEq, Except.ok.injEq] at h
    obtain ⟨hr, hsys⟩ := h
    subst hr
    subst hsys
    exact hlook
  | none =>
    unfold claimVoucher at h
    simp only [hlook] at h
    split at h
    · simp at h
    · split at h
      · simp at h
      · split at h
        · split at h
          · simp at h
          · split at h
            · simp at h
            · exact validate_success_cached _ _ _ _ _ h hs
        · exact validate_success_cached _ _ _ _ _ h hs

/-- C5.  A hit in the idempotency cache makes claimVoucher return the
cached result with no rate-limit recording and no state mutation at all;
consequently, replaying a call that returned a committed success (whose
result was cached under the request id) yields the identical response and
leaves the whole system state — claimed counts and claim rows included —
untouched. -/
theorem C5_idempotent_replay :
    (∀ (req : ClaimRequest) (now : Int) (sys : SysState) (r : ClaimResponse),
      getClaimResult sys.cache req.idempotencyKey = some r →
      claimVoucher req now sys = (.ok r, sys))
    ∧ (∀ (req : ClaimRequest) (now : Int) (sys sys1 : SysState) (r : ClaimResponse),
      claimVoucher req now sys = (.ok r, sys1) →
      r.status = some RespStatus.success →
      claimVoucher req now sys1 = (.ok r, sys1)) := by
  have hhit : ∀ (req : ClaimRequest) (now : Int) (sys : SysState) (r : ClaimResponse),
      getClaimResult sys.cache req.idempotencyKey = some r →
      claimVoucher req now sys = (.ok r, sys) := by
    intro req now sys r hl
    unfold claimVoucher
    simp only [hl]
  exact ⟨hhit, fun req now sys sys1 r h hs =>
    hhit req now sys1 r (claimVoucher_success_cached req now sys sys1 r h hs)⟩

/-- C5 witness: the happy-path claim succeeds and caches its result under
r1; replaying the same request returns the identical body and the state is
bit-for-bit unchanged. -/
theorem C5_witness :
    claimVoucher reqR1 1000 sysHappy = (.ok respHappy, sysHappy1)
    ∧ claimVoucher reqR1 1000 sysHappy1 = (.ok respHappy, sysHappy1) := by
  have h1 : claimVoucher reqR1 1000 sysHappy = (.ok respHappy, sysHappy1) :=
    Prod.ext_iff.mpr ⟨rfl, rfl⟩
  exact ⟨h1, C5_idempotent_replay.2 reqR1 1000 sysHappy sysHappy1 respHappy h1 rfl⟩

lemma mapId_updateRow (l : List UserRow) (uid : Nat) (f : Int → Int) :
    (l.map (fun u =>
      if u.id == uid then { u with vouchersClaimed := f u.vouchersClaimed } else u)).map
        UserRow.id = l.map UserRow.id := by
  induction l with
  | nil => rfl
  | cons a l ih =>
    simp only [List.map_cons, ih]
    congr 1
    split <;> rfl

lemma mapId_updateUserClaimed (st : DBState) (uid : Nat) (f : Int → Int) :
    (updateUserClaimed st uid f).users.map UserRow.id = st.users.map UserRow.id :=
  mapId_updateRow st.users uid f

lemma userInv_updateIncrement (st : DBState) (uid : Nat) (u : UserRow)
    (hn : UsersIdNodup st) (hi : UserInv st)
    (hfind : findActiveUser st uid = some u)
    (hlt : u.vouchersClaimed < u.voucherLimit) :
    UserInv (updateUserClaimed st uid (fun c => c + 1)) := by
  have hmem : u ∈ st.users := List.mem_of_find?_eq_some hfind
  have hpu := List.find?_some hfind
  have hub := hi u hmem
  have huid : u.id = uid := by
    have hb := (Bool.and_eq_true _ _).mp hpu |>.1
    simpa using hb
  intro v hv
  simp only [updateUserClaimed, List.mem_map] at hv
  obtain ⟨w, hw, hvw⟩ := hv
  have hwb := hi w hw
  by_cases hb : (w.id == uid) = true
  · have hwid : w.id = uid := by simpa using hb
    have hwu : w = u :=
      List.inj_on_of_nodup_map hn hw hmem (by rw [hwid, huid])
    subst hwu
    rw [if_pos hb] at hvw
    subst hvw
    constructor
    · show (0 : Int) ≤ w.vouchersClaimed + 1
      omega
    · show w.vouchersClaimed + 1 ≤ w.voucherLimit
      omega
  · rw [if_neg hb] at hvw
    subst hvw
    exact hwb

lemma userInv_updateDecrement (st : DBState) (uid : Nat) (hi : UserInv st) :
    UserInv (updateUserClaimed st uid (fun c => max 0 (c - 1))) := by
  intro v hv
  simp only [updateUserClaimed, List.mem_map] at hv
  obtain ⟨w, hw, hvw⟩ := hv
  have hwb := hi w hw
  subst hvw
  split
  · constructor
    · show (0 : Int) ≤ max 0 (w.vouchersClaimed - 1)
      exact le_max_left 0 (w.vouchersClaimed - 1)
    · show max 0 (w.vouchersClaimed - 1) ≤ w.voucherLimit
      refine max_le (le_trans hwb.1 hwb.2) ?_
      omega
  · exact hwb

lemma fastTx_users (req : ClaimRequest) (now : Int) (st : DBState) (cache : CacheState)
    (r : ClaimResponse) (st1 : DBState) (c1 : CacheState)
    (h : processClaimImmediateTx req now st cache = .ok (r, st1, c1)) :
    ∃ u, findActiveUser st req.userId = some u
      ∧ u.vouchersClaimed < u.voucherLimit
      ∧ st1.users = (updateUserClaimed st req.userId (fun c => c + 1)).users := by
  unfold processClaimImmediateTx at h
  split at h
  · simp at h
  · rename_i u hfind
    split at h
    · simp at h
    · rename_i hge
      split at h
      · simp at h
      · split at h
        · simp at h
        · split at h
          · simp at h
          · split at h
            · simp at h
            · split at h
              · simp at h
              · refine ⟨u, hfind, by omega, ?_⟩
                simp only [Prod.mk.injEq, Except.ok.injEq] at h
                obtain ⟨-, hst, -⟩ := h
                subst hst
                rw [users_insertClaim]
                rfl

lemma workerTx_users (job : ClaimRequest) (now : Int) (st : DBState) (cache : CacheState)
    (r : ClaimResponse) (st1 : DBState) (c1 : CacheState)
    (h : processJobTx job now st cache = .ok (r, st1, c1)) :
    st1.users = st.users
    ∨ ∃ u, findActiveUser st job.userId = some u
        ∧ u.vouchersClaimed < u.voucherLimit
        ∧ st1.users = (updateUserClaimed st job.userId (fun c => c + 1)).users := by
  unfold processJobTx at h
  split at h
  · simp at h
  · rename_i u hfind
    split at h
    · left
      simp only [Prod.mk.injEq, Except.ok.injEq] at h
      obtain ⟨-, hst, -⟩ := h
      rw [← hst]
    · rename_i hge
      split at h
      · simp at h
      · split at h
        · simp at h
        · right
          refine ⟨u, hfind, by omega, ?_⟩
          simp only [Prod.mk.injEq, Except.ok.injEq] at h
          obtain ⟨-, hst, -⟩ := h
          subst hst
          rw [users_insertClaim]
          rfl

lemma refundTx_users (cid : Nat) (reason : String) (adm : Option Nat) (now : Int)
    (st st1 : DBState) (h : refundVoucherTx cid reason adm now st = .ok st1) :
    ∃ uid, st1.users = (updateUserClaimed st uid (fun c => max 0 (c - 1))).users := by
  unfold refundVoucherTx at h
  split at h
  · simp at h
  · rename_i claim hfindc
    split at h
    · simp at h
    · refine ⟨claim.userId, ?_⟩
      simp only [Except.ok.injEq] at h
      subst h
      cases hv : claim.voucherCodeId <;> simp only [hv] <;> rfl

lemma applyOp_preserves (st : DBState) (op : Op)
    (hn : UsersIdNodup st) (hi : UserInv st) :
    UsersIdNodup (applyOp st op) ∧ UserInv (applyOp st op) := by
  cases op with
  | claimFast req now =>
    cases htx : processClaimImmediateTx req now st emptyCache with
    | error e =>
      have hst : applyOp st (Op.claimFast req now) = st := by
        simp [applyOp, processClaimImmediate, htx]
      rw [hst]
      exact ⟨hn, hi⟩
    | ok val =>
      obtain ⟨r, st1, c1⟩ := val
      obtain ⟨u, hfind, hlt, husers⟩ := fastTx_users req now st emptyCache r st1 c1 htx
      have hst : applyOp st (Op.claimFast req now) = st1 := by
        simp [applyOp, processClaimImmediate, htx]
      rw [hst]
      constructor
      · unfold UsersIdNodup
        rw [husers, mapId_updateUserClaimed]
        exact hn
      · intro v hv
        rw [husers] at hv
        exact userInv_updateIncrement st req.userId u hn hi hfind hlt v hv
  | claimQueued req now =>
    cases htx : processJobTx req now st emptyCache with
    | error e =>
      have hst : applyOp st (Op.claimQueued req now) = st := by
        simp [applyOp, processJob, htx]
      rw [hst]
      exact ⟨hn, hi⟩
    | ok val =>
      obtain ⟨r, st1, c1⟩ := val
      have hst : applyOp st (Op.claimQueued req now) = st1 := by
        simp [applyOp, processJob, htx]
      rw [hst]
      rcases workerTx_users req now st emptyCache r st1 c1 htx with husers |
        ⟨u, hfind, hlt, husers⟩
      · constructor
        · unfold UsersIdNodup
          rw [husers]
          exact hn
        · intro v hv
          rw [husers] at hv
          exact hi v hv
      · constructor
        · unfold UsersIdNodup
          rw [husers, mapId_updateUserClaimed]
          exact hn
        · intro v hv
          rw [husers] at hv
          exact userInv_updateIncrement st req.userId u hn hi hfind hlt v hv
  | refundOp cid reason adm now =>
    cases htx : refundVoucherTx cid reason adm now st with
    | error e =>
      have hst : applyOp st (Op.refundOp cid reason adm now) = st := by
        simp [applyOp, refundVoucher, htx]
      rw [hst]
      exact ⟨hn, hi⟩
    | ok st1 =>
      obtain ⟨uid, husers⟩ := refundTx_users cid reason adm now st st1 htx
      have hst : applyOp st (Op.refundOp cid reason adm now) = st1 := by
        simp [applyOp, refundVoucher, htx]
      rw [hst]
      constructor
      · unfold UsersIdNodup
        rw [husers, mapId_updateUserClaimed]
        exact hn
      · intro v hv
        rw [husers] at hv
        exact userInv_updateDecrement st uid hi v hv

/-- C3.  From any store whose users table has distinct ids and satisfies
0 ≤ claimed ≤ limit, every state reachable by any sequence of fast-path
claims, queued worker claims and refunds still satisfies
0 ≤ claimed ≤ limit for every user: the claim transactions increment only
after checking claimed < limit on the locked row, and the refund decrement
is floored at 0. -/
theorem C3_user_limit_invariant (ops : List Op) (st : DBState)
    (hn : UsersIdNodup st) (hi : UserInv st) :
    UserInv (applyOps st ops) := by
  induction ops generalizing st with
  | nil => exact hi
  | cons op ops ih =>
    have h := applyOp_preserves st op hn hi
    exact ih (applyOp st op) h.1 h.2

/-- C3 witness: the invariant evaluated after a concrete claim, refund and
queued-job sequence from the happy-path store. -/
theorem C3_witness : UserInv (applyOps stHappy opsRoundTrip) :=
  C3_user_limit_invariant opsRoundTrip stHappy (by decide) (by decide)

end VoucherProblem
